import Mathlib

/-!
Shallow embedding of the Oryx-Embedded RTOS abstraction layer
(`os_port_cmx_rtx.c`, `os_port_safertos.c`, `os_port_zephyr.c`,
`os_port_px5.c`) together with the kernel primitives those ports call.

The port functions (`osAllocateSemaphoreId`, `osWaitForEvent`, ...) are
translated directly from the C sources.  The underlying kernel calls
(`K_Semaphore_*`, `xSemaphore*`, `k_sem_*`, `px5_sem_*`) are external
collaborators whose code is not part of this repository; they are modelled
from the specification's downward interface (binary/counting semaphores with
non-blocking and blocking take, post saturating at the creation-time
capacity).  All executions are straight-line single-task runs: a blocking
take delivers exactly when a signal is already pending, since no concurrent
poster exists in such a run.
-/

namespace OsPort

/-- Timeout sentinel for an unbounded wait (`INFINITE_DELAY` in os_port.h,
the all-ones 32-bit value). -/
def INFINITE_DELAY : Nat := 4294967295

/-- `OS_MS_TO_SYSTICKS` conversion macro; the identity in every port present
here. -/
def OS_MS_TO_SYSTICKS (n : Nat) : Nat := n

/-- Iterate a state transformer `n` times (used to express "perform `n`
releases / `n` set calls"). -/
def iterOp (f : α → α) : Nat → α → α
  | 0, a => a
  | n + 1, a => iterOp f n (f a)

/-- Run a fallible step `n` times, collecting the Boolean results in order
(used to express "perform `n` wait calls"). -/
def runSteps (step : σ → Bool × σ) : Nat → σ → List Bool × σ
  | 0, s => ([], s)
  | n + 1, s =>
    let r := step s
    let rest := runSteps step n r.2
    (r.1 :: rest.1, rest.2)

/-- A kernel counting semaphore: current count plus creation-time capacity.
Modelled from the spec: the count stays in `[0, maxCount]`, a post beyond
the capacity saturates. -/
structure CountingSem where
  count : Nat
  maxCount : Nat
deriving DecidableEq

/-- Which kernel operation a task-delete call is routed to. -/
inductive TaskDeleteRoute (H : Type) where
  | exitCurrent : TaskDeleteRoute H
  | deleteByHandle : H → TaskDeleteRoute H
deriving DecidableEq

/-- A kernel scheduler lock/unlock invocation, recorded so that "invokes no
kernel scheduler operation" is observable. -/
inductive SchedOp where
  | lock : SchedOp
  | unlock : SchedOp
deriving DecidableEq

namespace Cmx

/-! ### CMX-RTX port (`os_port_cmx_rtx.c` / `os_port_cmx_rtx.h`) -/

/-- `OS_MAX_SEMAPHORES` (default value from os_port_cmx_rtx.h). -/
def OS_MAX_SEMAPHORES : Nat := 64

/-- `OS_INVALID_SEMAPHORE_ID` from os_port_cmx_rtx.h. -/
def OS_INVALID_SEMAPHORE_ID : Nat := 255

/-- `OS_SELF_TASK_ID` from os_port_cmx_rtx.h. -/
def OS_SELF_TASK_ID : Nat := 0

/-- The scan-and-mark loop of `osAllocateSemaphoreId`: walk the allocation
table looking for the first entry equal to `FALSE`, mark it `TRUE` and
return its index (`i` is the index of the head of the remaining table). -/
def allocScan : List Bool → Nat → Option Nat × List Bool
  | [], _ => (none, [])
  | b :: rest, i =>
    if b = false then (some i, true :: rest)
    else
      let r := allocScan rest (i + 1)
      (r.1, b :: r.2)

/-- `osAllocateSemaphoreId`: linear scan of the allocation table for the
first free slot; returns `OS_INVALID_SEMAPHORE_ID` when the table is
exhausted.  The interrupt-disable critical section of the C code makes the
scan-and-mark atomic, which the sequential model reflects by performing it
as one step. -/
def osAllocateSemaphoreId (table : List Bool) : Nat × List Bool :=
  match allocScan table 0 with
  | (some i, t2) => (i, t2)
  | (none, t2) => (OS_INVALID_SEMAPHORE_ID, t2)

/-- `osFreeSemaphoreId`: mark the entry free; out-of-range identifiers are
ignored. -/
def osFreeSemaphoreId (id : Nat) (table : List Bool) : List Bool :=
  if id < OS_MAX_SEMAPHORES then table.set id false else table

/-- `n` consecutive `osAllocateSemaphoreId` calls, collecting the returned
identifiers. -/
def allocRun : Nat → List Bool → List Nat × List Bool
  | 0, t => ([], t)
  | n + 1, t =>
    let r := osAllocateSemaphoreId t
    let rest := allocRun n r.2
    (r.1 :: rest.1, rest.2)

lemma allocScan_some (t : List Bool) (i j : Nat) (t2 : List Bool)
    (h : allocScan t i = (some j, t2)) :
    i ≤ j ∧ j - i < t.length ∧ t.get? (j - i) = some false := by
  induction t generalizing i j t2 with
  | nil => simp [allocScan] at h
  | cons b rest ih =>
    by_cases hb : b = false
    · simp [allocScan, hb] at h
      obtain ⟨hj, _⟩ := h
      subst hj hb
      simp
    · simp [allocScan, hb] at h
      obtain ⟨hr, _⟩ := h
      obtain ⟨t3, ht3⟩ : ∃ t3, allocScan rest (i + 1) = (some j, t3) := by
        cases hscan : allocScan rest (i + 1) with
        | mk o t3 =>
          cases o with
          | none => rw [hscan] at hr; simp at hr
          | some k =>
            rw [hscan] at hr
            simp at hr
            subst hr
            exact ⟨t3, rfl⟩
      obtain ⟨h1, h2, h3⟩ := ih (i + 1) j t3 ht3
      refine ⟨by omega, by simp; omega, ?_⟩
      have hji : j - i = (j - (i + 1)) + 1 := by omega
      rw [hji]
      simpa using h3

lemma allocScan_mem_false (t : List Bool) (i : Nat) (h : false ∈ t) :
    ∃ j t2, allocScan t i = (some j, t2) := by
  induction t generalizing i with
  | nil => simp at h
  | cons b rest ih =>
    by_cases hb : b = false
    · exact ⟨i, true :: rest, by simp [allocScan, hb]⟩
    · have hmem : false ∈ rest := by
        rcases List.mem_cons.mp h with h1 | h1
        · exact absurd h1.symm hb
        · exact h1
      obtain ⟨j, t2, hscan⟩ := ih (i + 1) hmem
      exact ⟨j, b :: t2, by simp [allocScan, hb, hscan]⟩

/-- A valid identifier returned by the allocator always points at a slot
that was free (not already marked in use). -/
lemma osAllocateSemaphoreId_fresh (t : List Bool)
    (h : (osAllocateSemaphoreId t).1 ≠ OS_INVALID_SEMAPHORE_ID) :
    (osAllocateSemaphoreId t).1 < t.length ∧
      t.get? (osAllocateSemaphoreId t).1 = some false := by
  unfold osAllocateSemaphoreId at *
  cases hscan : allocScan t 0 with
  | mk o t2 =>
    cases o with
    | none => simp [hscan] at h
    | some j =>
      obtain ⟨_, h2, h3⟩ := allocScan_some t 0 j t2 hscan
      have h4 : t[j]? = some false := by simpa using h3
      simpa [hscan] using ⟨h2, h4⟩

/-- If some slot of the table is free, the allocator succeeds. -/
lemma osAllocateSemaphoreId_of_mem_false (t : List Bool) (h : false ∈ t)
    (hlen : t.length ≤ 255) :
    (osAllocateSemaphoreId t).1 ≠ OS_INVALID_SEMAPHORE_ID := by
  obtain ⟨j, t2, hscan⟩ := allocScan_mem_false t 0 h
  obtain ⟨_, h2, _⟩ := allocScan_some t 0 j t2 hscan
  unfold osAllocateSemaphoreId
  rw [hscan]
  simp [OS_INVALID_SEMAPHORE_ID]
  omega

/-! CMX-RTX kernel semaphore (external collaborator).  Modelled from the
spec's downward interface: a counting semaphore whose post accumulates
unconsumed signals (which is why the port drains in a loop). The state
tracked per object is its current count. -/

/-- Modelled from the spec: `K_Semaphore_Create(id, count)` creates a fresh
kernel semaphore whose count is the given initial count. -/
def K_Semaphore_Create (initCount : Nat) : Nat := initCount

/-- Modelled from the spec: `K_Semaphore_Get` is the non-blocking take; it
returns `K_OK` (here `true`) and decrements exactly when the count is
positive. -/
def K_Semaphore_Get (c : Nat) : Bool × Nat :=
  if 0 < c then (true, c - 1) else (false, c)

/-- Modelled from the spec: `K_Semaphore_Post` increments the count. -/
def K_Semaphore_Post (c : Nat) : Nat := c + 1

/-- Modelled from the spec: `K_Semaphore_Wait(id, ticks)` is the blocking
take.  In a straight-line single-task run there is no concurrent poster, so
it delivers exactly when a signal is already pending and otherwise the
timeout elapses. -/
def K_Semaphore_Wait (c : Nat) (_ticks : Nat) : Bool × Nat :=
  if 0 < c then (true, c - 1) else (false, c)

/-- The `do { status = K_Semaphore_Get(id); } while(status == K_OK)` drain
loop shared by `osResetEvent` and `osWaitForEvent`: `K_Semaphore_Get` on a
zero count fails leaving `0`, and on `c + 1` succeeds leaving `c`, so the
loop is total recursion on the count. -/
def semDrainLoop : Nat → Nat
  | 0 => 0
  | c + 1 => semDrainLoop c

/-- `osCreateEvent`: allocate an identifier and create a kernel semaphore
with initial count `0`; `none` models the `FALSE` return (allocator
exhausted).  The result carries the updated allocation table and the count
of the event's kernel semaphore. -/
def osCreateEvent (table : List Bool) : Option (List Bool × Nat) :=
  if (osAllocateSemaphoreId table).1 ≠ OS_INVALID_SEMAPHORE_ID then
    some ((osAllocateSemaphoreId table).2, K_Semaphore_Create 0)
  else
    none

/-- `osSetEvent`: `K_Semaphore_Post(event->id)`. -/
def osSetEvent (c : Nat) : Nat := K_Semaphore_Post c

/-- `osResetEvent`: drain the event's kernel semaphore until
`K_Semaphore_Get` fails. -/
def osResetEvent (c : Nat) : Nat := semDrainLoop c

/-- `osWaitForEvent`: poll (`timeout == 0`), block forever
(`timeout == INFINITE_DELAY`, native ticks `0`) or block for a bounded
interval; on success, drain the count back to the nonsignaled state before
returning `TRUE`. -/
def osWaitForEvent (c : Nat) (timeout : Nat) : Bool × Nat :=
  let r :=
    if timeout = 0 then K_Semaphore_Get c
    else if timeout = INFINITE_DELAY then K_Semaphore_Wait c 0
    else K_Semaphore_Wait c (OS_MS_TO_SYSTICKS timeout)
  if r.1 then (true, semDrainLoop r.2) else (false, r.2)

/-- `osCreateMutex`: allocate an identifier, create the kernel semaphore
empty (`count 0`), then `K_Semaphore_Post` exactly once to make it
available. -/
def osCreateMutex (table : List Bool) : Option (List Bool × Nat) :=
  if (osAllocateSemaphoreId table).1 ≠ OS_INVALID_SEMAPHORE_ID then
    some ((osAllocateSemaphoreId table).2, K_Semaphore_Post (K_Semaphore_Create 0))
  else
    none

/-- `osAcquireMutex`: `K_Semaphore_Wait(mutex->id, 0)` (block forever).  The
Boolean of the straight-line model records whether ownership was obtained
immediately, without blocking. -/
def osAcquireMutex (c : Nat) : Bool × Nat := K_Semaphore_Wait c 0

/-- `osReleaseMutex`: `K_Semaphore_Post(mutex->id)`. -/
def osReleaseMutex (c : Nat) : Nat := K_Semaphore_Post c

/-- `osDeleteTask`: `K_Task_End()` for the calling task, `K_Task_Delete(id)`
otherwise. -/
def osDeleteTask (taskId : Nat) : TaskDeleteRoute Nat :=
  if taskId = OS_SELF_TASK_ID then TaskDeleteRoute.exitCurrent
  else TaskDeleteRoute.deleteByHandle taskId

/-- `osSuspendAllTasks`: `K_Task_Lock()`, unconditionally — the scheduler
state is not consulted. -/
def osSuspendAllTasks (_schedulerStarted : Bool) : List SchedOp :=
  [SchedOp.lock]

/-- `osResumeAllTasks`: `K_Task_Unlock()`, unconditionally. -/
def osResumeAllTasks (_schedulerStarted : Bool) : List SchedOp :=
  [SchedOp.unlock]

lemma semDrainLoop_eq_zero (c : Nat) : semDrainLoop c = 0 := by
  induction c with
  | zero => rfl
  | succ n ih => simpa [semDrainLoop] using ih

/-- In the straight-line model every timeout branch of `osWaitForEvent`
behaves as: deliver and drain when a signal is pending, otherwise time
out. -/
lemma cmxWaitForEvent_eq (c timeout : Nat) :
    osWaitForEvent c timeout = if 0 < c then (true, 0) else (false, c) := by
  unfold osWaitForEvent K_Semaphore_Get K_Semaphore_Wait
  by_cases hc : 0 < c <;>
    simp [hc, semDrainLoop_eq_zero]

end Cmx

namespace SafeRtos

/-! ### SafeRTOS port (`os_port_safertos.c` / `os_port_safertos.h`) -/

/-- `portMAX_DELAY` tick sentinel for an unbounded kernel wait.  Modelled
from the spec (the kernel header is an external collaborator). -/
def portMAX_DELAY : Nat := 4294967295

/-- Modelled from the spec: a fresh SafeRTOS binary semaphore defaults to
the available state, which is why the port drains events at creation
time. -/
def binarySemDefault : Bool := true

/-- Modelled from the spec: `xSemaphoreTake` on a binary semaphore consumes
the single pending signal when one is present; in a straight-line
single-task run that is exactly when the state is available. -/
def xSemaphoreTake (b : Bool) (_ticks : Nat) : Bool × Bool :=
  if b then (true, false) else (false, b)

/-- Modelled from the spec: `xSemaphoreGive` on a binary semaphore makes it
available (saturating at one pending signal). -/
def xSemaphoreGive (_b : Bool) : Bool := true

/-- `osCreateEvent` specialised to a successful `xSemaphoreCreateBinary`
call whose fresh semaphore starts in state `b0`; the port then forces the
nonsignaled state with `xSemaphoreTake(event->handle, 0)`.  The result is
the event's state after creation. -/
def osCreateEvent (b0 : Bool) : Bool := (xSemaphoreTake b0 0).2

/-- `osSetEvent`: `xSemaphoreGive(event->handle)`. -/
def osSetEvent (b : Bool) : Bool := xSemaphoreGive b

/-- `osResetEvent`: a single `xSemaphoreTake(event->handle, 0)` — a binary
semaphore never accumulates more than one pending signal. -/
def osResetEvent (b : Bool) : Bool := (xSemaphoreTake b 0).2

/-- `osWaitForEvent`: `portMAX_DELAY` for `INFINITE_DELAY`, converted ticks
otherwise (`timeout == 0` becomes a non-blocking poll because the tick
count is `0`). -/
def osWaitForEvent (b : Bool) (timeout : Nat) : Bool × Bool :=
  if timeout = INFINITE_DELAY then xSemaphoreTake b portMAX_DELAY
  else xSemaphoreTake b (OS_MS_TO_SYSTICKS timeout)

/-- Modelled from the spec:
`xSemaphoreCreateCounting(uxMaxCount, uxInitialCount, buffer, handle)`
creates a counting semaphore with the given capacity and initial count. -/
def xSemaphoreCreateCounting (uxMaxCount uxInitialCount : Nat) : CountingSem :=
  ⟨uxInitialCount, uxMaxCount⟩

/-- Modelled from the spec: counting-semaphore take; in a straight-line
single-task run it delivers exactly when the count is positive. -/
def xSemaphoreTakeCounting (s : CountingSem) (_ticks : Nat) :
    Bool × CountingSem :=
  if 0 < s.count then (true, ⟨s.count - 1, s.maxCount⟩) else (false, s)

/-- Modelled from the spec: counting-semaphore give increments the count,
saturating at the creation-time capacity. -/
def xSemaphoreGiveCounting (s : CountingSem) : CountingSem :=
  if s.count < s.maxCount then ⟨s.count + 1, s.maxCount⟩ else s

/-- `osCreateSemaphore(semaphore, count)` specialised to a successful
kernel call: `xSemaphoreCreateCounting(count, count, ...)` — capacity and
initial count both equal to `count` (fully available). -/
def osCreateSemaphore (count : Nat) : CountingSem :=
  xSemaphoreCreateCounting count count

/-- `osWaitForSemaphore`. -/
def osWaitForSemaphore (s : CountingSem) (timeout : Nat) :
    Bool × CountingSem :=
  if timeout = INFINITE_DELAY then xSemaphoreTakeCounting s portMAX_DELAY
  else xSemaphoreTakeCounting s (OS_MS_TO_SYSTICKS timeout)

/-- `osReleaseSemaphore`: `xSemaphoreGive(semaphore->handle)`. -/
def osReleaseSemaphore (s : CountingSem) : CountingSem :=
  xSemaphoreGiveCounting s

/-- `osCreateMutex` specialised to a successful `xSemaphoreCreateBinary`
call whose fresh semaphore starts in state `b0`; the port then performs
exactly one `xSemaphoreGive` to force the available state.  The result is
the mutex's state after creation. -/
def osCreateMutex (b0 : Bool) : Bool := xSemaphoreGive b0

/-- `osAcquireMutex`: `xSemaphoreTake(mutex->handle, portMAX_DELAY)`.  The
Boolean of the straight-line model records whether ownership was obtained
immediately, without blocking. -/
def osAcquireMutex (b : Bool) : Bool × Bool := xSemaphoreTake b portMAX_DELAY

/-- Task parameters (`OsTaskParameters` from os_port_safertos.h): the
control-block and stack pointers are modelled by their null-ness. -/
structure OsTaskParameters where
  tcb : Option Unit
  stack : Option Unit
  stackSize : Nat
  priority : Nat
deriving DecidableEq

/-- `taskIDLE_PRIORITY` (kernel constant, modelled from the spec). -/
def taskIDLE_PRIORITY : Nat := 0

/-- `OS_TASK_DEFAULT_PARAMS`: all-NULL storage, stack size `0`, priority
`taskIDLE_PRIORITY + 1`. -/
def OS_TASK_DEFAULT_PARAMS : OsTaskParameters :=
  ⟨none, none, 0, taskIDLE_PRIORITY + 1⟩

/-- `OS_INVALID_TASK_ID` is `NULL` (os_port_safertos.h). -/
def OS_INVALID_TASK_ID : Option Nat := none

/-- `OS_SELF_TASK_ID` is `NULL` (os_port_safertos.h). -/
def OS_SELF_TASK_ID : Option Nat := none

/-- `osCreateTask`: both the control block and the stack must be supplied,
otherwise `OS_INVALID_TASK_ID` is returned without calling the kernel.
`xTaskCreate` is the kernel's outcome (`some handle` on `pdPASS`, `none` on
failure, in which case the handle is overwritten with
`OS_INVALID_TASK_ID`); the second component records whether the kernel
task-creation call was invoked. -/
def osCreateTask (params : OsTaskParameters) (xTaskCreate : Option Nat) :
    Option Nat × Bool :=
  if params.tcb ≠ none ∧ params.stack ≠ none then (xTaskCreate, true)
  else (OS_INVALID_TASK_ID, false)

/-- `osDeleteTask`: a single unconditional `xTaskDelete(taskId)` — there is
no branch on `OS_SELF_TASK_ID`. -/
def osDeleteTask (taskId : Option Nat) : TaskDeleteRoute (Option Nat) :=
  TaskDeleteRoute.deleteByHandle taskId

/-- `osSuspendAllTasks`: `vTaskSuspendScheduler()` only when
`xTaskIsSchedulerStarted()` reports the scheduler running. -/
def osSuspendAllTasks (schedulerStarted : Bool) : List SchedOp :=
  if schedulerStarted then [SchedOp.lock] else []

/-- `osResumeAllTasks`: `xTaskResumeScheduler()` only when the scheduler is
running. -/
def osResumeAllTasks (schedulerStarted : Bool) : List SchedOp :=
  if schedulerStarted then [SchedOp.unlock] else []

/-- Every timeout branch of `osWaitForEvent` is the same straight-line
binary take. -/
lemma srWaitForEvent_eq (b : Bool) (timeout : Nat) :
    osWaitForEvent b timeout = xSemaphoreTake b 0 := by
  unfold osWaitForEvent xSemaphoreTake
  by_cases h : timeout = INFINITE_DELAY <;> simp [h]

/-- Every timeout branch of `osWaitForSemaphore` is the same straight-line
counting take. -/
lemma srWaitForSemaphore_eq (s : CountingSem) (timeout : Nat) :
    osWaitForSemaphore s timeout = xSemaphoreTakeCounting s 0 := by
  unfold osWaitForSemaphore xSemaphoreTakeCounting
  by_cases h : timeout = INFINITE_DELAY <;> simp [h]

end SafeRtos

namespace Zephyr

/-! ### Zephyr port (`os_port_zephyr.c`) -/

/-- A Zephyr `struct k_sem`: current count and limit.  Modelled from the
spec's downward interface. -/
structure KSem where
  count : Nat
  limit : Nat
deriving DecidableEq

/-- Modelled from the spec: `k_sem_init(sem, initial_count, limit)`. -/
def k_sem_init (initialCount limit : Nat) : KSem := ⟨initialCount, limit⟩

/-- Modelled from the spec: `k_sem_take`; succeeds (error code `0`, here
`true`) exactly when the count is positive in a straight-line single-task
run. -/
def k_sem_take (s : KSem) (_timeout : Nat) : Bool × KSem :=
  if 0 < s.count then (true, ⟨s.count - 1, s.limit⟩) else (false, s)

/-- Modelled from the spec: `k_sem_give` increments, saturating at the
limit. -/
def k_sem_give (s : KSem) : KSem :=
  if s.count < s.limit then ⟨s.count + 1, s.limit⟩ else s

/-- Modelled from the spec: `k_sem_reset` zeroes the count. -/
def k_sem_reset (s : KSem) : KSem := ⟨0, s.limit⟩

/-- `K_NO_WAIT` (modelled from the spec). -/
def K_NO_WAIT : Nat := 0

/-- `K_FOREVER` (modelled from the spec). -/
def K_FOREVER : Nat := 4294967295

/-- `osCreateEvent` specialised to a successful `k_sem_init(event, 0, 1)`
call: a binary semaphore with count `0`. -/
def osCreateEvent : KSem := k_sem_init 0 1

/-- `osSetEvent`: `k_sem_give(event)`. -/
def osSetEvent (s : KSem) : KSem := k_sem_give s

/-- `osResetEvent`: `k_sem_reset(event)`. -/
def osResetEvent (s : KSem) : KSem := k_sem_reset s

/-- `osWaitForEvent`. -/
def osWaitForEvent (s : KSem) (timeout : Nat) : Bool × KSem :=
  if timeout = 0 then k_sem_take s K_NO_WAIT
  else if timeout = INFINITE_DELAY then k_sem_take s K_FOREVER
  else k_sem_take s timeout

/-- Task parameters (`OsTaskParameters` for the Zephyr port): the
control-block (`struct k_thread`) and stack pointers are modelled by their
null-ness. -/
structure OsTaskParameters where
  tcb : Option Unit
  stack : Option Unit
  stackSize : Nat
  priority : Int
deriving DecidableEq

/-- `CONFIG_NUM_PREEMPT_PRIORITIES` (Zephyr configuration constant; its
value is irrelevant to the claims, modelled from the spec). -/
def CONFIG_NUM_PREEMPT_PRIORITIES : Int := 15

/-- `OS_TASK_DEFAULT_PARAMS`: all-NULL storage, stack size `0`. -/
def OS_TASK_DEFAULT_PARAMS : OsTaskParameters :=
  ⟨none, none, 0, CONFIG_NUM_PREEMPT_PRIORITIES - 1⟩

/-- `OS_INVALID_TASK_ID` is the null thread id (modelled from the spec; the
Zephyr port header is not part of the sources). -/
def OS_INVALID_TASK_ID : Option Nat := none

/-- `osCreateTask`: both the control block and the stack must be supplied,
otherwise `OS_INVALID_TASK_ID` is returned without calling the kernel.
`k_thread_create` is the kernel's outcome; the second component records
whether the kernel thread-creation call was invoked. -/
def osCreateTask (params : OsTaskParameters) (k_thread_create : Option Nat) :
    Option Nat × Bool :=
  if params.tcb ≠ none ∧ params.stack ≠ none then (k_thread_create, true)
  else (OS_INVALID_TASK_ID, false)

/-- `osSuspendAllTasks`: `k_sched_lock()`, unconditionally — the scheduler
state is not consulted. -/
def osSuspendAllTasks (_schedulerStarted : Bool) : List SchedOp :=
  [SchedOp.lock]

/-- `osResumeAllTasks`: `k_sched_unlock()`, unconditionally. -/
def osResumeAllTasks (_schedulerStarted : Bool) : List SchedOp :=
  [SchedOp.unlock]

end Zephyr

namespace Px5

/-! ### PX5 port (`os_port_px5.c`) -/

/-- Modelled from the spec: `px5_sem_init(sem, pshared, value)` creates a
counting semaphore whose initial count is `value`; the port documents
`value` as "the maximum count for the semaphore object", and the spec fixes
the invariant `count ∈ [0, capacity]`, so the capacity is `value` as
well. -/
def px5_sem_init (value : Nat) : CountingSem := ⟨value, value⟩

/-- Modelled from the spec: non-blocking `px5_sem_trywait`. -/
def px5_sem_trywait (s : CountingSem) : Bool × CountingSem :=
  if 0 < s.count then (true, ⟨s.count - 1, s.maxCount⟩) else (false, s)

/-- Modelled from the spec: blocking `px5_sem_wait`; in a straight-line
single-task run it delivers exactly when the count is positive. -/
def px5_sem_wait (s : CountingSem) : Bool × CountingSem :=
  if 0 < s.count then (true, ⟨s.count - 1, s.maxCount⟩) else (false, s)

/-- Modelled from the spec: bounded `px5_sem_timedwait`. -/
def px5_sem_timedwait (s : CountingSem) (_ticks : Nat) : Bool × CountingSem :=
  if 0 < s.count then (true, ⟨s.count - 1, s.maxCount⟩) else (false, s)

/-- Modelled from the spec: `px5_sem_post` increments the count, saturating
at the creation-time capacity (spec §4.3: "increments count, saturating at
capacity"). -/
def px5_sem_post (s : CountingSem) : CountingSem :=
  if s.count < s.maxCount then ⟨s.count + 1, s.maxCount⟩ else s

/-- `osCreateSemaphore(semaphore, count)` specialised to a successful
kernel call: `px5_sem_init(semaphore, 0, count)`. -/
def osCreateSemaphore (count : Nat) : CountingSem := px5_sem_init count

/-- `osWaitForSemaphore`. -/
def osWaitForSemaphore (s : CountingSem) (timeout : Nat) :
    Bool × CountingSem :=
  if timeout = 0 then px5_sem_trywait s
  else if timeout = INFINITE_DELAY then px5_sem_wait s
  else px5_sem_timedwait s (OS_MS_TO_SYSTICKS timeout)

/-- `osReleaseSemaphore`: `px5_sem_post(semaphore)`. -/
def osReleaseSemaphore (s : CountingSem) : CountingSem := px5_sem_post s

/-- `OS_SELF_TASK_ID` (modelled from the spec: the reserved sentinel
denoting the calling task; the PX5 port header is not part of the
sources). -/
def OS_SELF_TASK_ID : Nat := 0

/-- `osDeleteTask`: `px5_pthread_exit(NULL)` for the calling thread,
`pthread_cancel(taskId)` otherwise. -/
def osDeleteTask (taskId : Nat) : TaskDeleteRoute Nat :=
  if taskId = OS_SELF_TASK_ID then TaskDeleteRoute.exitCurrent
  else TaskDeleteRoute.deleteByHandle taskId

/-- Every timeout branch of `osWaitForSemaphore` is the same straight-line
take. -/
lemma px5WaitForSemaphore_eq (s : CountingSem) (timeout : Nat) :
    osWaitForSemaphore s timeout = px5_sem_trywait s := by
  unfold osWaitForSemaphore px5_sem_trywait px5_sem_wait px5_sem_timedwait
  by_cases h0 : timeout = 0 <;> by_cases hi : timeout = INFINITE_DELAY <;>
    simp [h0, hi]

end Px5

/-! ### Shared lemmas about counting-semaphore runs -/

/-- Iterating a capacity-saturating release on a full semaphore leaves it
unchanged. -/
lemma iterOp_release_full (rel : CountingSem → CountingSem)
    (hrel : ∀ s, rel s =
      if s.count < s.maxCount then ⟨s.count + 1, s.maxCount⟩ else s)
    (k c : Nat) : iterOp rel k ⟨c, c⟩ = ⟨c, c⟩ := by
  induction k with
  | zero => rfl
  | succ n ih =>
    have h1 : rel ⟨c, c⟩ = ⟨c, c⟩ := by rw [hrel]; simp
    simpa [iterOp, h1] using ih

/-- Running `n` takes on a semaphore holding at least `n` units succeeds on
every step and removes exactly `n` units. -/
lemma runSteps_take (step : CountingSem → Bool × CountingSem)
    (hstep : ∀ s, step s =
      if 0 < s.count then (true, ⟨s.count - 1, s.maxCount⟩) else (false, s)) :
    ∀ (n : Nat) (s : CountingSem), n ≤ s.count →
      (runSteps step n s).1 = List.replicate n true ∧
        (runSteps step n s).2 = ⟨s.count - n, s.maxCount⟩ := by
  intro n
  induction n with
  | zero =>
    intro s _
    cases s
    simp [runSteps]
  | succ m ih =>
    intro s hn
    have hc : 0 < s.count := by omega
    have h1 : step s = (true, ⟨s.count - 1, s.maxCount⟩) := by
      rw [hstep]; simp [hc]
    have h2 := ih ⟨s.count - 1, s.maxCount⟩ (by simp; omega)
    simp only [runSteps, h1] at *
    refine ⟨by simp [h2.1, List.replicate_succ], ?_⟩
    rw [h2.2]
    congr 1
    omega

/-! ### Claims -/

/-- C1: for an event created by `osCreateEvent` and currently nonsignaled,
one `osSetEvent` followed by one `osWaitForEvent` (any timeout) yields
`TRUE`, an immediately following `osWaitForEvent` with timeout `0` yields
`FALSE`, and every successful wait clears (drains) the event's entire
accumulated state before returning — on the CMX-RTX and SafeRTOS
backends. -/
theorem C1_event_set_then_single_wait_autoclears :
    (∀ t : Nat,
      (Cmx.osWaitForEvent (Cmx.osSetEvent 0) t).1 = true ∧
      (Cmx.osWaitForEvent (Cmx.osWaitForEvent (Cmx.osSetEvent 0) t).2 0).1
        = false) ∧
    (∀ c t : Nat, (Cmx.osWaitForEvent c t).1 = true →
      (Cmx.osWaitForEvent c t).2 = 0) ∧
    (∀ t : Nat,
      (SafeRtos.osWaitForEvent (SafeRtos.osSetEvent false) t).1 = true ∧
      (SafeRtos.osWaitForEvent
        (SafeRtos.osWaitForEvent (SafeRtos.osSetEvent false) t).2 0).1
        = false) ∧
    (∀ (b : Bool) (t : Nat), (SafeRtos.osWaitForEvent b t).1 = true →
      (SafeRtos.osWaitForEvent b t).2 = false) := by
  refine ⟨?_, ?_, ?_, ?_⟩
  · intro t
    simp [Cmx.cmxWaitForEvent_eq, Cmx.osSetEvent, Cmx.K_Semaphore_Post]
  · intro c t h
    rw [Cmx.cmxWaitForEvent_eq] at h ⊢
    by_cases hc : 0 < c
    · simp [hc]
    · simp [hc] at h
  · intro t
    simp [SafeRtos.srWaitForEvent_eq, SafeRtos.osSetEvent,
      SafeRtos.xSemaphoreGive, SafeRtos.xSemaphoreTake]
  · intro b t h
    rw [SafeRtos.srWaitForEvent_eq] at h ⊢
    cases b <;> simp [SafeRtos.xSemaphoreTake] at h ⊢

theorem C1_event_set_then_single_wait_autoclears_witness :
    (Cmx.osWaitForEvent 1 0).2 = 0 :=
  C1_event_set_then_single_wait_autoclears.2.1 1 0 (by decide)

/-- C2: after a successful `osCreateSemaphore(semaphore, c)` — whose
initial count equals the capacity `c` — `c` releases followed by `c` waits
yield `TRUE` on every wait, and a `(c+1)`-th wait with a finite timeout and
no intervening release yields `FALSE` — on the SafeRTOS and PX5
backends. -/
theorem C2_semaphore_capacity_cycle (c : Nat) (hc : 1 ≤ c) (t tw : Nat)
    (htw : tw ≠ INFINITE_DELAY) :
    ((SafeRtos.osCreateSemaphore c).count = c ∧
      (runSteps (fun s => SafeRtos.osWaitForSemaphore s t) c
        (iterOp SafeRtos.osReleaseSemaphore c
          (SafeRtos.osCreateSemaphore c))).1 = List.replicate c true ∧
      (SafeRtos.osWaitForSemaphore
        (runSteps (fun s => SafeRtos.osWaitForSemaphore s t) c
          (iterOp SafeRtos.osReleaseSemaphore c
            (SafeRtos.osCreateSemaphore c))).2 tw).1 = false) ∧
    ((Px5.osCreateSemaphore c).count = c ∧
      (runSteps (fun s => Px5.osWaitForSemaphore s t) c
        (iterOp Px5.osReleaseSemaphore c (Px5.osCreateSemaphore c))).1
        = List.replicate c true ∧
      (Px5.osWaitForSemaphore
        (runSteps (fun s => Px5.osWaitForSemaphore s t) c
          (iterOp Px5.osReleaseSemaphore c (Px5.osCreateSemaphore c))).2
        tw).1 = false) := by
  have hsr0 : SafeRtos.osCreateSemaphore c = ⟨c, c⟩ := rfl
  have hpx0 : Px5.osCreateSemaphore c = ⟨c, c⟩ := rfl
  have hsrRel : iterOp SafeRtos.osReleaseSemaphore c
      (SafeRtos.osCreateSemaphore c) = ⟨c, c⟩ := by
    rw [hsr0]
    exact iterOp_release_full _ (fun s => rfl) c c
  have hpxRel : iterOp Px5.osReleaseSemaphore c (Px5.osCreateSemaphore c)
      = ⟨c, c⟩ := by
    rw [hpx0]
    exact iterOp_release_full _ (fun s => rfl) c c
  have hsrStep : ∀ s, SafeRtos.osWaitForSemaphore s t =
      if 0 < s.count then (true, ⟨s.count - 1, s.maxCount⟩) else (false, s) := by
    intro s
    rw [SafeRtos.srWaitForSemaphore_eq]
    rfl
  have hpxStep : ∀ s, Px5.osWaitForSemaphore s t =
      if 0 < s.count then (true, ⟨s.count - 1, s.maxCount⟩) else (false, s) := by
    intro s
    rw [Px5.px5WaitForSemaphore_eq]
    rfl
  have hsrRun := runSteps_take _ hsrStep c ⟨c, c⟩ (le_refl c)
  have hpxRun := runSteps_take _ hpxStep c ⟨c, c⟩ (le_refl c)
  refine ⟨⟨by rw [hsr0], ?_, ?_⟩, ⟨by rw [hpx0], ?_, ?_⟩⟩
  · rw [hsrRel]
    exact hsrRun.1
  · rw [hsrRel, hsrRun.2, SafeRtos.srWaitForSemaphore_eq]
    simp [SafeRtos.xSemaphoreTakeCounting]
  · rw [hpxRel]
    exact hpxRun.1
  · rw [hpxRel, hpxRun.2, Px5.px5WaitForSemaphore_eq]
    simp [Px5.px5_sem_trywait]

theorem C2_semaphore_capacity_cycle_witness :
    (SafeRtos.osCreateSemaphore 2).count = 2 :=
  (C2_semaphore_capacity_cycle 2 (by decide) 0 0 (by decide)).1.1

/-- C3: from the all-free table of size `N = OS_MAX_SEMAPHORES = 64`, `N`
consecutive `osAllocateSemaphoreId` calls return the `N` pairwise-distinct
identifiers `0, ..., N-1`, each below `N`; the `(N+1)`-th call returns
`OS_INVALID_SEMAPHORE_ID`; in every state a returned valid identifier's
slot was free; and after one `osFreeSemaphoreId` of an allocated (in-range)
identifier the next `osAllocateSemaphoreId` succeeds. -/
theorem C3_identifier_allocator :
    ((Cmx.allocRun 64 (List.replicate 64 false)).1 = List.range 64 ∧
      (Cmx.allocRun 64 (List.replicate 64 false)).1.Nodup ∧
      (∀ id ∈ (Cmx.allocRun 64 (List.replicate 64 false)).1, id < 64) ∧
      (Cmx.osAllocateSemaphoreId
        (Cmx.allocRun 64 (List.replicate 64 false)).2).1
        = Cmx.OS_INVALID_SEMAPHORE_ID) ∧
    (∀ table : List Bool,
      (Cmx.osAllocateSemaphoreId table).1 ≠ Cmx.OS_INVALID_SEMAPHORE_ID →
      table.get? (Cmx.osAllocateSemaphoreId table).1 = some false) ∧
    (∀ (table : List Bool) (id : Nat),
      table.length = Cmx.OS_MAX_SEMAPHORES → id < Cmx.OS_MAX_SEMAPHORES →
      (Cmx.osAllocateSemaphoreId (Cmx.osFreeSemaphoreId id table)).1
        ≠ Cmx.OS_INVALID_SEMAPHORE_ID) := by
  have hrun : (Cmx.allocRun 64 (List.replicate 64 false)).1 = List.range 64 := by
    decide
  refine ⟨⟨hrun, ?_, ?_, by decide⟩, ?_, ?_⟩
  · rw [hrun]
    exact List.nodup_range 64
  · rw [hrun]
    intro id hid
    exact List.mem_range.mp hid
  · intro table h
    exact (Cmx.osAllocateSemaphoreId_fresh table h).2
  · intro table id hlen hid
    have hid2 : id < table.length := by rw [hlen]; exact hid
    have hfree : Cmx.osFreeSemaphoreId id table = table.set id false := by
      unfold Cmx.osFreeSemaphoreId
      simp [hid]
    have hget : (table.set id false)[id]? = some false := by
      rw [List.getElem?_set_self hid2]
    have hmem : false ∈ table.set id false := List.getElem?_mem hget
    have hlen2 : (table.set id false).length ≤ 255 := by
      simp [hlen, Cmx.OS_MAX_SEMAPHORES]
    rw [hfree]
    exact Cmx.osAllocateSemaphoreId_of_mem_false _ hmem hlen2

theorem C3_identifier_allocator_witness :
    (Cmx.osAllocateSemaphoreId
      (Cmx.osFreeSemaphoreId 5 (List.replicate 64 true))).1
      ≠ Cmx.OS_INVALID_SEMAPHORE_ID :=
  C3_identifier_allocator.2.2 (List.replicate 64 true) 5 (by decide) (by decide)

/-- C4: after every successful `osCreateEvent` the event is nonsignaled —
an `osWaitForEvent` with timeout `0` before any `osSetEvent` returns
`FALSE`, regardless of the kernel's default initial state — on the
SafeRTOS (drained at creation), CMX-RTX (created with count `0`) and
Zephyr (initialized with count `0`) backends. -/
theorem C4_created_event_nonsignaled :
    (∀ b0 : Bool, SafeRtos.osCreateEvent b0 = false ∧
      (SafeRtos.osWaitForEvent (SafeRtos.osCreateEvent b0) 0).1 = false) ∧
    (∀ (table tbl2 : List Bool) (c : Nat),
      Cmx.osCreateEvent table = some (tbl2, c) →
      c = 0 ∧ (Cmx.osWaitForEvent c 0).1 = false) ∧
    (Zephyr.osCreateEvent.count = 0 ∧
      (Zephyr.osWaitForEvent Zephyr.osCreateEvent 0).1 = false) := by
  refine ⟨?_, ?_, by decide⟩
  · intro b0
    cases b0 <;>
      simp [SafeRtos.osCreateEvent, SafeRtos.srWaitForEvent_eq,
        SafeRtos.xSemaphoreTake]
  · intro table tbl2 c h
    unfold Cmx.osCreateEvent at h
    by_cases halloc :
        (Cmx.osAllocateSemaphoreId table).1 ≠ Cmx.OS_INVALID_SEMAPHORE_ID
    · simp [halloc, Cmx.K_Semaphore_Create] at h
      refine ⟨h.2.symm, ?_⟩
      rw [← h.2]
      simp [Cmx.cmxWaitForEvent_eq]
    · simp [halloc] at h

theorem C4_created_event_nonsignaled_witness :
    (Cmx.osWaitForEvent 0 0).1 = false :=
  (C4_created_event_nonsignaled.2.1 (List.replicate 64 false)
    (true :: List.replicate 63 false) 0 (by decide)).2

/-- C5: `osResetEvent` followed by `osWaitForEvent` with timeout `0` times
out regardless of how many `osSetEvent` calls preceded it without an
intervening wait: the reset drains the entire accumulated count — on the
CMX-RTX (drain loop) and SafeRTOS (single binary take) backends. -/
theorem C5_reset_then_poll_times_out :
    (∀ k c : Nat,
      (Cmx.osWaitForEvent (Cmx.osResetEvent (iterOp Cmx.osSetEvent k c)) 0).1
        = false) ∧
    (∀ (k : Nat) (b : Bool),
      (SafeRtos.osWaitForEvent
        (SafeRtos.osResetEvent (iterOp SafeRtos.osSetEvent k b)) 0).1
        = false) := by
  constructor
  · intro k c
    simp [Cmx.osResetEvent, Cmx.semDrainLoop_eq_zero, Cmx.cmxWaitForEvent_eq]
  · intro k b
    have hreset : ∀ b2 : Bool, SafeRtos.osResetEvent b2 = false := by
      intro b2
      cases b2 <;> simp [SafeRtos.osResetEvent, SafeRtos.xSemaphoreTake]
    simp [hreset, SafeRtos.srWaitForEvent_eq, SafeRtos.xSemaphoreTake]

/-- C6: after every successful `osCreateMutex` the mutex is available: on
CMX-RTX the port creates the backing semaphore empty and posts exactly
once, so its count is `1` and the first `osAcquireMutex` succeeds without
blocking; on SafeRTOS the single `xSemaphoreGive` after creation leaves the
binary semaphore available and the first `osAcquireMutex` succeeds. -/
theorem C6_created_mutex_available :
    (∀ (table tbl2 : List Bool) (c : Nat),
      Cmx.osCreateMutex table = some (tbl2, c) →
      c = 1 ∧ (Cmx.osAcquireMutex c).1 = true ∧ (Cmx.osAcquireMutex c).2 = 0) ∧
    (∀ b0 : Bool, SafeRtos.osCreateMutex b0 = true ∧
      (SafeRtos.osAcquireMutex (SafeRtos.osCreateMutex b0)).1 = true) := by
  constructor
  · intro table tbl2 c h
    unfold Cmx.osCreateMutex at h
    by_cases halloc :
        (Cmx.osAllocateSemaphoreId table).1 ≠ Cmx.OS_INVALID_SEMAPHORE_ID
    · simp [halloc, Cmx.K_Semaphore_Create, Cmx.K_Semaphore_Post] at h
      rw [← h.2]
      refine ⟨rfl, ?_, ?_⟩ <;> simp [Cmx.osAcquireMutex, Cmx.K_Semaphore_Wait]
    · simp [halloc] at h
  · intro b0
    constructor
    · rfl
    · simp [SafeRtos.osCreateMutex, SafeRtos.xSemaphoreGive,
        SafeRtos.osAcquireMutex, SafeRtos.xSemaphoreTake]

theorem C6_created_mutex_available_witness :
    (Cmx.osAcquireMutex 1).1 = true :=
  (C6_created_mutex_available.1 (List.replicate 64 false)
    (true :: List.replicate 63 false) 1 (by decide)).2.1

/-- C7: when static allocation is requested but exactly one of the control
block and the stack is supplied, `osCreateTask` returns
`OS_INVALID_TASK_ID` and never invokes the kernel's task-creation call —
on the SafeRTOS and Zephyr backends. -/
theorem C7_partial_static_parameters_rejected :
    (∀ (p : SafeRtos.OsTaskParameters) (kr : Option Nat),
      (p.tcb = none ∧ p.stack ≠ none) ∨ (p.tcb ≠ none ∧ p.stack = none) →
      SafeRtos.osCreateTask p kr = (SafeRtos.OS_INVALID_TASK_ID, false)) ∧
    (∀ (p : Zephyr.OsTaskParameters) (kr : Option Nat),
      (p.tcb = none ∧ p.stack ≠ none) ∨ (p.tcb ≠ none ∧ p.stack = none) →
      Zephyr.osCreateTask p kr = (Zephyr.OS_INVALID_TASK_ID, false)) := by
  constructor
  · intro p kr h
    unfold SafeRtos.osCreateTask
    rcases h with ⟨h1, _⟩ | ⟨_, h1⟩
    · simp [h1]
    · simp [h1]
  · intro p kr h
    unfold Zephyr.osCreateTask
    rcases h with ⟨h1, _⟩ | ⟨_, h1⟩
    · simp [h1]
    · simp [h1]

theorem C7_partial_static_parameters_rejected_witness :
    SafeRtos.osCreateTask ⟨none, some (), 128, 1⟩ (some 7)
      = (SafeRtos.OS_INVALID_TASK_ID, false) :=
  C7_partial_static_parameters_rejected.1 ⟨none, some (), 128, 1⟩ (some 7)
    (Or.inl ⟨rfl, by decide⟩)

/-- C8 counterexample: on the SafeRTOS backend `osDeleteTask` applied to
the SELF sentinel (`OS_SELF_TASK_ID`, i.e. `NULL`) is not routed to a
dedicated exit-current-task kernel operation — it goes through the single
unconditional `xTaskDelete` call like every other identifier. -/
theorem C8_self_delete_not_dedicated_on_safertos :
    ¬ (SafeRtos.osDeleteTask SafeRtos.OS_SELF_TASK_ID
        = TaskDeleteRoute.exitCurrent) := by
  decide

/-- C8 (amended): on CMX-RTX and PX5, `osDeleteTask` routes the SELF
sentinel to the kernel's dedicated exit-current-task operation and every
other identifier to the generic delete-by-handle operation; on SafeRTOS
every identifier, including `OS_SELF_TASK_ID` (`NULL`), is passed to the
generic `xTaskDelete`, which itself interprets `NULL` as the calling
task. -/
theorem C8_delete_task_routing :
    (∀ id : Nat, Cmx.osDeleteTask id =
      if id = Cmx.OS_SELF_TASK_ID then TaskDeleteRoute.exitCurrent
      else TaskDeleteRoute.deleteByHandle id) ∧
    (∀ id : Nat, Px5.osDeleteTask id =
      if id = Px5.OS_SELF_TASK_ID then TaskDeleteRoute.exitCurrent
      else TaskDeleteRoute.deleteByHandle id) ∧
    (∀ id : Option Nat,
      SafeRtos.osDeleteTask id = TaskDeleteRoute.deleteByHandle id) :=
  ⟨fun _ => rfl, fun _ => rfl, fun _ => rfl⟩

/-- C9 counterexample: on the Zephyr backend `osSuspendAllTasks` is not a
no-op before the scheduler has started — it unconditionally invokes the
kernel's `k_sched_lock`. -/
theorem C9_zephyr_suspend_not_noop :
    Zephyr.osSuspendAllTasks false ≠ ([] : List SchedOp) := by
  decide

/-- C9 (amended): only the SafeRTOS backend guards `osSuspendAllTasks` /
`osResumeAllTasks` with `xTaskIsSchedulerStarted`, making them no-ops
before the scheduler has started; the Zephyr and CMX-RTX backends invoke
the kernel scheduler lock/unlock unconditionally, regardless of scheduler
state. -/
theorem C9_suspend_resume_scheduler_guard :
    (SafeRtos.osSuspendAllTasks false = [] ∧
      SafeRtos.osResumeAllTasks false = []) ∧
    (SafeRtos.osSuspendAllTasks true = [SchedOp.lock] ∧
      SafeRtos.osResumeAllTasks true = [SchedOp.unlock]) ∧
    (∀ b : Bool,
      Zephyr.osSuspendAllTasks b = [SchedOp.lock] ∧
      Zephyr.osResumeAllTasks b = [SchedOp.unlock] ∧
      Cmx.osSuspendAllTasks b = [SchedOp.lock] ∧
      Cmx.osResumeAllTasks b = [SchedOp.unlock]) :=
  ⟨⟨rfl, rfl⟩, ⟨rfl, rfl⟩, fun _ => ⟨rfl, rfl, rfl, rfl⟩⟩

/-- C10: on the SafeRTOS and Zephyr backends `osCreateTask` never performs
dynamic allocation: whenever the control block or the stack is `NULL` —
including the all-NULL `OS_TASK_DEFAULT_PARAMS` — it returns
`OS_INVALID_TASK_ID` without invoking the kernel's task-creation call, and
a non-invalid identifier is only ever returned for fully static
parameters. -/
theorem C10_static_only_task_creation :
    (∀ (p : SafeRtos.OsTaskParameters) (kr : Option Nat),
      p.tcb = none ∨ p.stack = none →
      SafeRtos.osCreateTask p kr = (SafeRtos.OS_INVALID_TASK_ID, false)) ∧
    (∀ kr : Option Nat,
      SafeRtos.osCreateTask SafeRtos.OS_TASK_DEFAULT_PARAMS kr
        = (SafeRtos.OS_INVALID_TASK_ID, false)) ∧
    (∀ (p : SafeRtos.OsTaskParameters) (kr : Option Nat),
      (SafeRtos.osCreateTask p kr).1 ≠ SafeRtos.OS_INVALID_TASK_ID →
      p.tcb ≠ none ∧ p.stack ≠ none) ∧
    (∀ (p : Zephyr.OsTaskParameters) (kr : Option Nat),
      p.tcb = none ∨ p.stack = none →
      Zephyr.osCreateTask p kr = (Zephyr.OS_INVALID_TASK_ID, false)) ∧
    (∀ kr : Option Nat,
      Zephyr.osCreateTask Zephyr.OS_TASK_DEFAULT_PARAMS kr
        = (Zephyr.OS_INVALID_TASK_ID, false)) ∧
    (∀ (p : Zephyr.OsTaskParameters) (kr : Option Nat),
      (Zephyr.osCreateTask p kr).1 ≠ Zephyr.OS_INVALID_TASK_ID →
      p.tcb ≠ none ∧ p.stack ≠ none) := by
  refine ⟨?_, ?_, ?_, ?_, ?_, ?_⟩
  · intro p kr h
    unfold SafeRtos.osCreateTask
    rcases h with h1 | h1 <;> simp [h1]
  · intro kr
    rfl
  · intro p kr h
    unfold SafeRtos.osCreateTask at h
    by_cases hcond : p.tcb ≠ none ∧ p.stack ≠ none
    · exact hcond
    · simp only [hcond, if_false] at h
      exact absurd rfl h
  · intro p kr h
    unfold Zephyr.osCreateTask
    rcases h with h1 | h1 <;> simp [h1]
  · intro kr
    rfl
  · intro p kr h
    unfold Zephyr.osCreateTask at h
    by_cases hcond : p.tcb ≠ none ∧ p.stack ≠ none
    · exact hcond
    · simp only [hcond, if_false] at h
      exact absurd rfl h

theorem C10_static_only_task_creation_witness :
    Zephyr.osCreateTask ⟨some (), none, 0, 1⟩ (some 3)
      = (Zephyr.OS_INVALID_TASK_ID, false) :=
  C10_static_only_task_creation.2.2.2.1 ⟨some (), none, 0, 1⟩ (some 3)
    (Or.inr rfl)

end OsPort
